import Mathlib

/-
Shallow embedding of the FiltersCompiler sources (src/main/converter.js and the
filter builder module).  JavaScript strings are modelled as Lean `String`s,
arrays as `List`s, and the synchronous file system as an explicit association
list threaded through the functions.  Logger output that matters to the
specification (logger.warn) is modelled as an explicit list of messages.
-/

namespace FiltersCompiler

/-! ### String utilities modelling the JavaScript built-ins used by the source -/

/-- ASCII lower-casing of one character.  This models the effect of the
JavaScript case-insensitive regex flag `i` on the ASCII patterns used by the
converter (for ASCII pattern characters, ECMAScript canonicalisation is exactly
ASCII case folding). -/
def lowerAscii (c : Char) : Char :=
  if 'A' ≤ c ∧ c ≤ 'Z' then Char.ofNat (c.toNat + 32) else c

/-- ASCII whitespace, the fragment of the JavaScript `trim` character class
relevant to the ASCII rule syntax handled by the compiler. -/
def isSpaceChar (c : Char) : Bool :=
  decide (c = ' ' ∨ c = '\t' ∨ c = '\n' ∨ c = '\r' ∨ c = '\x0b' ∨ c = '\x0c')

/-- JavaScript String.prototype.trim (on the ASCII whitespace range). -/
def trim (s : String) : String :=
  ⟨((s.data.dropWhile isSpaceChar).reverse.dropWhile isSpaceChar).reverse⟩

/-- Substring containment on character lists (String.prototype.includes). -/
def containsSub (sub : List Char) : List Char → Bool
  | [] => sub.isEmpty
  | c :: rest => sub.isPrefixOf (c :: rest) || containsSub sub rest

/-- JavaScript s.includes(sub). -/
def containsS (s sub : String) : Bool := containsSub sub.data s.data

/-- JavaScript s.startsWith(pre). -/
def startsWithS (s pre : String) : Bool := pre.data.isPrefixOf s.data

/-- JavaScript s.endsWith(suf). -/
def endsWithS (s suf : String) : Bool := suf.data.isSuffixOf s.data

/-- Is this character CR or LF? -/
def isNewline (c : Char) : Bool := decide (c = '\r' ∨ c = '\n')

/-- Worker for `splitLines`: accumulates the current line (reversed) and starts
a new line at every maximal run of CR/LF characters.  The fuel argument (one
unit per consumed character) makes the recursion structural; it is started at
the string length, which every step strictly decreases below, so the
fuel-exhausted fallback is unreachable. -/
def splitLinesAux : Nat → List Char → List Char → List (List Char)
  | _, [], acc => [acc.reverse]
  | 0, s, acc => [acc.reverse ++ s]
  | fuel + 1, c :: rest, acc =>
    if isNewline c then
      acc.reverse :: splitLinesAux fuel (rest.dropWhile isNewline) []
    else
      splitLinesAux fuel rest (c :: acc)

/-- The source's splitLines: string.split(/[\r\n]+/), i.e. splitting on maximal
runs of CR/LF characters (runs collapse; boundary empties remain). -/
def splitLines (s : String) : List String :=
  (splitLinesAux s.data.length s.data []).map (fun l => ⟨l⟩)

/-- Worker for JavaScript String.prototype.split with a non-empty separator
(s0 :: sep): cuts at every (leftmost-first) occurrence of the separator.
Fuel as in `splitLinesAux`. -/
def splitSubAux (s0 : Char) (sep : List Char) : Nat → List Char → List Char → List (List Char)
  | _, [], acc => [acc.reverse]
  | 0, s, acc => [acc.reverse ++ s]
  | fuel + 1, c :: rest, acc =>
    if (s0 :: sep).isPrefixOf (c :: rest) then
      acc.reverse :: splitSubAux s0 sep fuel (rest.drop sep.length) []
    else
      splitSubAux s0 sep fuel rest (c :: acc)

/-- JavaScript String.prototype.split on a separator string.  The masks this is
used with are never empty; the empty-separator case is given a harmless value. -/
def splitSub (sep s : List Char) : List (List Char) :=
  match sep with
  | [] => [s]
  | s0 :: sepRest => splitSubAux s0 sepRest s.length s []

/-- JavaScript rule.split(mask, 2): all splits, truncated to the first two. -/
def jsSplit2 (s mask : String) : List String :=
  ((splitSub mask.data s.data).take 2).map (fun l => ⟨l⟩)

/-! ### The CSS_RULE_REPLACE_PATTERN regex, (.*):style\((.*)\) -/

/-- The literal characters of ":style(". -/
def styleToken : List Char := [':', 's', 't', 'y', 'l', 'e', '(']

/-- The greedy split point of (.*):style\((.*)\): the largest k such that
":style(" occurs at position k and some ')' occurs after it (the first group
is greedy, so backtracking settles on the largest such k; the match, when it
exists, always starts at position 0 because (.*) matches any prefix). -/
def styleSplitIndex (s : List Char) : Option Nat :=
  (List.range (s.length + 1)).reverse.find?
    (fun k => styleToken.isPrefixOf (s.drop k) && (s.drop (k + 7)).contains ')')

/-- Index of the last ')' in l (meaningful only when ')' occurs in l):
the second group (.*) is greedy, so it extends to the last closing paren. -/
def lastCloseIndex (l : List Char) : Nat :=
  l.length - 1 - (l.reverse.findIdx (fun c => c = ')'))

/-- The two captured groups of CSS_RULE_REPLACE_PATTERN on success. -/
def execStyle (s : List Char) : Option (List Char × List Char) :=
  match styleSplitIndex s with
  | none => none
  | some k =>
    let rest := s.drop (k + 7)
    some (s.take k, rest.take (lastCloseIndex rest))

/-- CSS_RULE_REPLACE_PATTERN.exec(s): on success JavaScript returns the array
[whole match, group 1, group 2] — always exactly three entries. -/
def matchStyleGroups (s : String) : Option (List String) :=
  match execStyle s.data with
  | none => none
  | some (g1, g2) => some [⟨g1 ++ styleToken ++ g2 ++ [')']⟩, ⟨g1⟩, ⟨g2⟩]

/-! ### Rule masks

The Rule Mask Registry (rule/rule-masks.js) is not part of the sources under
verification, so the constants are reconstructed from the specification. -/

/-- Modelled from the spec: rule-masks.js is missing; "##" is the plain
element-hiding separator, per the converter doc comment example
example.com##h1:style(...) → example.com#$#h1. -/
def MASK_ELEMENT_HIDING : String := "##"

/-- Modelled from the spec: rule-masks.js is missing; "#@#" is the
element-hiding exception separator, per the converter doc comment example
example.com#@#h1:style(...) → example.com#@$#h1. -/
def MASK_ELEMENT_HIDING_EXCEPTION : String := "#@#"

/-- Modelled from the spec: rule-masks.js is missing; "#$#" is the CSS
injection output separator. -/
def MASK_CSS : String := "#$#"

/-- Modelled from the spec: rule-masks.js is missing; "#@$#" is the CSS
injection exception output separator. -/
def MASK_CSS_EXCEPTION : String := "#@$#"

/-- Modelled from the spec: rule-masks.js is missing; "#?#" is the extended-CSS
element-hiding separator. -/
def MASK_CSS_EXTENDED_CSS_RULE : String := "#?#"

/-- Modelled from the spec: rule-masks.js is missing; "#@?#" is the
extended-CSS exception separator. -/
def MASK_CSS_EXCEPTION_EXTENDED_CSS_RULE : String := "#@?#"

/-- Modelled from the spec: rule-masks.js is missing; "#$?#" is the
extended-CSS injection output separator. -/
def MASK_CSS_INJECT_EXTENDED_CSS_RULE : String := "#$?#"

/-- Modelled from the spec: rule-masks.js is missing; "#@$?#" is the
extended-CSS injection exception output separator. -/
def MASK_CSS_EXCEPTION_INJECT_EXTENDED_CSS_RULE : String := "#@$?#"

/-! ### converter.js -/

/-- converter.js executeConversion.  Returns the (possibly rewritten) rule
together with the list of logger.warn messages emitted.  Mirrors the source:
the guard `if (domain)` (non-empty string), the null-match early exit, the
(always-false) groups.length !== 3 warning branch, and the reconstruction
domain + ruleMark + group1 + " { " + group2 + " }". -/
def executeConversion (rule : String) (parts : List String) (ruleMark : String) :
    String × List String :=
  if parts.getD 0 "" ≠ "" then
    match matchStyleGroups (parts.getD 1 "") with
    | none => (rule, [])
    | some groups =>
      if groups.length ≠ 3 then (rule, ["Cannot convert " ++ rule])
      else
        (parts.getD 0 "" ++ ruleMark ++ groups.getD 1 "" ++ " \x7b " ++
          groups.getD 2 "" ++ " \x7d", [])
  else (rule, [])

/-- The Step-A block of the convert loop: the ':style' check and the
priority-ordered mask dispatch, each branch splitting with limit 2 and calling
executeConversion with the corresponding output mask. -/
def convertStyleRule (rule : String) : String × List String :=
  if containsS rule ":style" then
    if containsS rule MASK_CSS_EXTENDED_CSS_RULE then
      executeConversion rule (jsSplit2 rule MASK_CSS_EXTENDED_CSS_RULE)
        MASK_CSS_INJECT_EXTENDED_CSS_RULE
    else if containsS rule MASK_CSS_EXCEPTION_EXTENDED_CSS_RULE then
      executeConversion rule (jsSplit2 rule MASK_CSS_EXCEPTION_EXTENDED_CSS_RULE)
        MASK_CSS_EXCEPTION_INJECT_EXTENDED_CSS_RULE
    else if containsS rule MASK_ELEMENT_HIDING then
      executeConversion rule (jsSplit2 rule MASK_ELEMENT_HIDING) MASK_CSS
    else if containsS rule MASK_ELEMENT_HIDING_EXCEPTION then
      executeConversion rule (jsSplit2 rule MASK_ELEMENT_HIDING_EXCEPTION) MASK_CSS_EXCEPTION
    else (rule, [])
  else (rule, [])

/-- Position of the leftmost match of the regex /([\$,])tok/i in a string:
the least index holding '$' or ',' immediately followed by the token,
compared ASCII-case-insensitively. -/
def firstMatchPos (tok : List Char) : List Char → Option Nat
  | [] => none
  | c :: rest =>
    if (c = '$' ∨ c = ',') ∧ (rest.take tok.length).map lowerAscii = tok then some 0
    else (firstMatchPos tok rest).map (· + 1)

/-- JavaScript s.replace(/([\$,])tok/i, "$1" + rep): rewrite the leftmost
delimiter-anchored occurrence of the token, keeping the delimiter; identity
when there is no match. -/
def replaceTokAux (tok rep : List Char) : List Char → List Char
  | [] => []
  | c :: rest =>
    if (c = '$' ∨ c = ',') ∧ (rest.take tok.length).map lowerAscii = tok then
      c :: (rep ++ rest.drop tok.length)
    else c :: replaceTokAux tok rep rest

/-- String wrapper for replaceTokAux. -/
def replaceTok (tok rep s : String) : String := ⟨replaceTokAux tok.data rep.data s.data⟩

/-- JavaScript REGEX.test(s) for /([\$,])tok/i. -/
def testTok (tok s : String) : Bool := (firstMatchPos tok.data s.data).isSome

/-- The Step-B block of the convert loop: the four option-token rewrites
(`first-party` → `~third-party`, `xhr` → `xmlhttprequest`, `css` →
`stylesheet`, `frame` → `subdocument`), applied in source order when any of
the four tests fires. -/
def optionsRewrite (rule : String) : String :=
  if testTok "first-party" rule || testTok "xhr" rule ||
      testTok "css" rule || testTok "frame" rule then
    replaceTok "frame" "subdocument"
      (replaceTok "css" "stylesheet"
        (replaceTok "xhr" "xmlhttprequest"
          (replaceTok "first-party" "~third-party" rule)))
  else rule

/-- One iteration of the convert loop, with the warn messages of Step A. -/
def convertRuleW (rule : String) : String × List String :=
  let a := convertStyleRule rule
  (optionsRewrite a.1, a.2)

/-- One iteration of the convert loop (result only). -/
def convertRule (rule : String) : String := (convertRuleW rule).1

/-- converter.js convert: each input rule contributes exactly one output rule,
in order. -/
def convert (rulesList : List String) : List String := rulesList.map convertRule

/-- The logger.warn messages emitted by a convert run. -/
def convertWarnings (rulesList : List String) : List String :=
  rulesList.flatMap (fun r => (convertRuleW r).2)

/-! ### The builder module

The second source module reads templates and resources through the Node `fs`
API; the file system is modelled as an association list from paths to
contents, threaded explicitly.  The module-level `currentDir` global is passed
as an explicit argument (it is set once at the start of each per-directory
build and only read afterwards, so this is behaviour-preserving for the
single-threaded source). -/

/-- metadata.json contents after JSON.parse (fields the builder reads). -/
structure Metadata where
  name : String
  description : String
  expires : String
deriving DecidableEq

/-- A revision: dotted version string and epoch-milliseconds timestamp. -/
structure Revision where
  version : String
  timeUpdated : Nat
deriving DecidableEq

/-- Modelled from the spec: the external collaborators of §6 (validator.js,
sorting.js, utils/version.js, the JSON parser, Date formatting, the JavaScript
RegExp engine, download-file-sync and the fs directory listing) are not under
src/ and are treated as black-box interfaces supplied to the builder. -/
structure Env where
  /-- new RegExp(pattern) match test against a line (null result ↦ false). -/
  regexTest : String → String → Bool
  /-- download-file-sync on a URL; none models a failed download. -/
  download : String → Option String
  /-- validator.validate -/
  validate : List String → List String
  /-- validator.blacklistDomains -/
  blacklistDomains : List String → List String
  /-- sorter.sort -/
  sortLines : List String → List String
  /-- version.increment -/
  incrementVersion : String → String
  /-- JSON.parse on revision.json: error models a parse exception; ok none
  models a parsed value that is falsy or lacks a truthy version field. -/
  parseRevisionVersion : String → Except String (Option String)
  /-- JSON.parse on metadata.json: error models a parse exception. -/
  parseMetadata : String → Except String Metadata
  /-- new Date(ms).toDateString() -/
  toDateString : Nat → String
  /-- new Date().getTime() at the moment makeRevision runs. -/
  now : Nat
  /-- fs.readdirSync -/
  listDir : String → List String
  /-- fs.lstatSync(p).isDirectory() -/
  isDirectory : String → Bool

/-- The file system: path ↦ contents, most recent write first. -/
structure FileSystem where
  files : List (String × String)

/-- readFile: fs.readFileSync with the catch-to-null wrapper. -/
def readFile (fs : FileSystem) (p : String) : Option String :=
  (fs.files.find? (fun kv => kv.1 == p)).map (fun kv => kv.2)

/-- writeFile: fs.writeFileSync (overwrite). -/
def writeFile (fs : FileSystem) (p : String) (data : String) : FileSystem :=
  ⟨(p, data) :: fs.files⟩

/-- path.join for the simple dir/name joins the builder performs. -/
def pathJoin (a b : String) : String := a ++ "/" ++ b

/-- Fixed resource names of the builder module. -/
def TEMPLATE_FILE : String := "template.txt"

/-- Output rule file name. -/
def FILTER_FILE : String := "filter.txt"

/-- Revision file name. -/
def REVISION_FILE : String := "revision.json"

/-- Metadata file name. -/
def METADATA_FILE : String := "metadata.json"

/-- Exclusions file name used by compile. -/
def EXCLUDE_FILE : String := "exclude.txt"

/-- stripComments: drop every line starting with '!'. -/
def stripComments (lines : List String) : List String :=
  lines.filter (fun line => !startsWithS line "!")

/-- JavaScript String.prototype.substring with indices already clamped below
at 0 (Nat): clamp above at the length and swap when start exceeds end. -/
def jsSubstring (s : String) (a b : Nat) : String :=
  let a' := min a s.data.length
  let b' := min b s.data.length
  ⟨(s.data.drop (min a' b')).take (max a' b' - min a' b')⟩

/-- isExcluded, parameterised by the RegExp engine rt: for each non-comment
entry (trimmed), a '/'-wrapped entry is tested as a pattern built from
exclusion.substring(1, exclusion.length - 2) — note the JavaScript substring
end index drops the final character of the pattern body along with the
closing slash — and any other entry as a literal substring. -/
def isExcluded (rt : String → String → Bool) (line : String) (exclusions : List String) :
    Bool :=
  exclusions.any (fun ex0 =>
    let ex := trim ex0
    if !startsWithS ex "!" then
      if startsWithS ex "/" && endsWithS ex "/" then
        rt (jsSubstring ex 1 (ex.data.length - 2)) line
      else containsS line ex
    else false)

/-- exclude: load the named exclusions resource from the current directory
(unreadable or empty ↦ no-op) and drop every line excluded by some entry. -/
def exclude (env : Env) (fs : FileSystem) (currentDir : String)
    (lines : List String) (exclusionsFileName : String) : List String :=
  match readFile fs (pathJoin currentDir exclusionsFileName) with
  | none => lines
  | some s =>
    if s = "" then lines
    else
      let exclusions := splitLines s
      lines.filter (fun line => !isExcluded env.regexTest line exclusions)

/-- stripEndQuotes: drop one leading and one trailing double quote when
present (the source's index arithmetic reduces to exactly this). -/
def stripEndQuotes (s : String) : String :=
  let s1 : List Char := match s.data with
    | '"' :: rest => rest
    | other => other
  if s1.getLast? = some '"' then ⟨s1.dropLast⟩ else ⟨s1⟩

/-- A parsed @include directive. -/
structure IncludeOptions where
  url : String
  stripComments : Bool
  exclude : Option String
deriving DecidableEq

/-- JavaScript s.indexOf(c). -/
def indexOfChar (s : String) (c : Char) : Nat := s.data.findIdx (fun x => x = c)

/-- parseIncludeLine: split on single spaces; url is parts[1] (undefined is
modelled as the empty string, which the caller rejects the same way);
attributes scanned from index 1, /exclude= keeping the last occurrence. -/
def parseIncludeLine (line : String) : IncludeOptions :=
  let parts := (splitSub [' '] line.data).map (fun l => (⟨l⟩ : String))
  let url := stripEndQuotes (trim (parts.getD 1 ""))
  let st := (parts.drop 1).foldl
    (fun (st : Bool × Option String) a =>
      let attr := trim a
      if startsWithS attr "/stripComments" then (true, st.2)
      else if startsWithS attr "/exclude=" then
        (st.1, some (stripEndQuotes ⟨attr.data.drop (indexOfChar attr '=' + 1)⟩))
      else st)
    (false, none)
  ⟨url, st.1, st.2⟩

/-- include (named includeLine: `include` is a Lean keyword): resolve one
@include directive to its contributed lines.  Remote when the url contains
':', otherwise a file relative to the current directory; missing or empty
content contributes nothing; the nested exclusion is applied before comment
stripping; the result is passed through convert. -/
def includeLine (env : Env) (fs : FileSystem) (currentDir : String) (line : String) :
    List String :=
  let options := parseIncludeLine line
  if options.url = "" then []
  else
    let included := if containsS options.url ":" then env.download options.url
                    else readFile fs (pathJoin currentDir options.url)
    let lines := match included with
      | some s =>
        if s ≠ "" then
          let r := splitLines s
          let r := match options.exclude with
            | some name => exclude env fs currentDir r name
            | none => r
          if options.stripComments then stripComments r else r
        else []
      | none => []
    convert lines

/-- The body of the compile loop for one template line: an @include line is
expanded (each produced line trimmed); every other line is pushed trimmed. -/
def processLine (env : Env) (fs : FileSystem) (currentDir : String) (line : String) :
    List String :=
  if startsWithS line "@include " then (includeLine env fs currentDir (trim line)).map trim
  else [trim line]

/-- Modelled from the spec: utils.removeDuplicates (utils/utils.js) is not
under src/; per §4.5 it is stable deduplication by exact string equality,
keeping the first occurrence. -/
def removeDuplicates (lines : List String) : List String :=
  (lines.foldl (fun acc l => if acc.contains l then acc else l :: acc) []).reverse

/-- compile: split the template into lines, expand the loop, then exclusion
filter with EXCLUDE_FILE, dedup, validate, blacklist, sort. -/
def compile (env : Env) (fs : FileSystem) (currentDir : String) (template : String) :
    List String :=
  let lines := splitLines template
  let result := lines.flatMap (processLine env fs currentDir)
  let result := exclude env fs currentDir result EXCLUDE_FILE
  let result := removeDuplicates result
  let result := env.validate result
  let result := env.blacklistDomains result
  env.sortLines result

/-- makeRevision: default version and fresh timestamp; an existing non-empty
revision file is JSON-parsed (a parse exception propagates) and a truthy
version field is incremented. -/
def makeRevision (env : Env) (fs : FileSystem) (p : String) : Except String Revision :=
  match readFile fs p with
  | none => .ok ⟨"1.0.0.0", env.now⟩
  | some current =>
    if current ≠ "" then
      match env.parseRevisionVersion current with
      | .error e => .error e
      | .ok none => .ok ⟨"1.0.0.0", env.now⟩
      | .ok (some v) => .ok ⟨env.incrementVersion v, env.now⟩
    else .ok ⟨"1.0.0.0", env.now⟩

/-- makeHeader: a missing or empty metadata file throws 'Error reading
metadata'; a JSON parse exception propagates; otherwise the five header
lines. -/
def makeHeader (env : Env) (fs : FileSystem) (metadataFile : String) (revision : Revision) :
    Except String (List String) :=
  match readFile fs metadataFile with
  | none => .error "Error reading metadata"
  | some metadataString =>
    if metadataString = "" then .error "Error reading metadata"
    else
      match env.parseMetadata metadataString with
      | .error e => .error e
      | .ok metadata =>
        .ok ["! Title: " ++ metadata.name,
             "! Description: " ++ metadata.description,
             "! Version: " ++ revision.version,
             "! TimeUpdated: " ++ env.toDateString revision.timeUpdated,
             "! Expires: " ++ metadata.expires ++ " (update frequency)"]

/-- JSON.stringify(revision, null, "\t"). -/
def revisionJson (r : Revision) : String :=
  "\x7b\n\t\"version\": \"" ++ r.version ++ "\",\n\t\"timeUpdated\": " ++
    toString r.timeUpdated ++ "\n\x7d"

/-- buildFilter: one directory's build.  Statements are modelled in source
order, with the file system threaded through so that a thrown error returns
the file system exactly as it was at the throw site. -/
def buildFilter (env : Env) (fs : FileSystem) (filterDir : String) :
    Except String Unit × FileSystem :=
  match readFile fs (pathJoin filterDir TEMPLATE_FILE) with
  | none => (.error "Invalid template", fs)
  | some template =>
    if template = "" then (.error "Invalid template", fs)
    else
      match makeRevision env fs (pathJoin filterDir REVISION_FILE) with
      | .error e => (.error e, fs)
      | .ok revision =>
        let compiled := compile env fs filterDir template
        match makeHeader env fs (pathJoin filterDir METADATA_FILE) revision with
        | .error e => (.error e, fs)
        | .ok header =>
          let filter := header ++ compiled
          let fs1 := writeFile fs (pathJoin filterDir FILTER_FILE)
            (String.intercalate "\r\n" filter)
          let fs2 := writeFile fs1 (pathJoin filterDir REVISION_FILE) (revisionJson revision)
          (.ok (), fs2)

/-- The body of the build loop over the listed items: a directory entry is
built; an uncaught buildFilter error propagates out of the loop (the source
has no try/catch around buildFilter). -/
def buildDirs (env : Env) (fs : FileSystem) (filtersDir : String) :
    List String → Except String Unit × FileSystem
  | [] => (.ok (), fs)
  | d :: rest =>
    let filterDir := pathJoin filtersDir d
    if env.isDirectory filterDir then
      match buildFilter env fs filterDir with
      | (.ok _, fs1) => buildDirs env fs1 filtersDir rest
      | (.error e, fs1) => (.error e, fs1)
    else buildDirs env fs filtersDir rest

/-- build: iterate fs.readdirSync(filtersDir) and build every directory. -/
def build (env : Env) (fs : FileSystem) (filtersDir : String) :
    Except String Unit × FileSystem :=
  buildDirs env fs filtersDir (env.listDir filtersDir)

/-! ### Derived predicates used to state the claims -/

/-- Does executeConversion rewrite the rule when dispatched on this mask?
Mirrors its conditions: non-empty domain part and a successful
CSS_RULE_REPLACE_PATTERN match on the part after the mask. -/
def convApplies (rule mask : String) : Bool :=
  (decide ((jsSplit2 rule mask).getD 0 "" ≠ "")) &&
    (matchStyleGroups ((jsSplit2 rule mask).getD 1 "")).isSome

/-- Does the Step-A dialect-mask ':style' rewrite fire on this rule?
Mirrors the dispatch conditions of the convert loop. -/
def styleConvApplies (rule : String) : Bool :=
  containsS rule ":style" &&
  (if containsS rule MASK_CSS_EXTENDED_CSS_RULE then
    convApplies rule MASK_CSS_EXTENDED_CSS_RULE
   else if containsS rule MASK_CSS_EXCEPTION_EXTENDED_CSS_RULE then
    convApplies rule MASK_CSS_EXCEPTION_EXTENDED_CSS_RULE
   else if containsS rule MASK_ELEMENT_HIDING then
    convApplies rule MASK_ELEMENT_HIDING
   else if containsS rule MASK_ELEMENT_HIDING_EXCEPTION then
    convApplies rule MASK_ELEMENT_HIDING_EXCEPTION
   else false)

/-- The rule matches none of the conversion patterns: no applicable
dialect-mask ':style' rewrite and none of the four option-token rewrites. -/
def noConvPattern (rule : String) : Bool :=
  !styleConvApplies rule && !testTok "first-party" rule && !testTok "xhr" rule &&
    !testTok "css" rule && !testTok "frame" rule

/-- The dialect mask the convert loop dispatches on, in the source's fixed
priority order (none when no mask substring occurs). -/
def selectedMask (rule : String) : Option String :=
  if containsS rule MASK_CSS_EXTENDED_CSS_RULE then some MASK_CSS_EXTENDED_CSS_RULE
  else if containsS rule MASK_CSS_EXCEPTION_EXTENDED_CSS_RULE then
    some MASK_CSS_EXCEPTION_EXTENDED_CSS_RULE
  else if containsS rule MASK_ELEMENT_HIDING then some MASK_ELEMENT_HIDING
  else if containsS rule MASK_ELEMENT_HIDING_EXCEPTION then some MASK_ELEMENT_HIDING_EXCEPTION
  else none

/-! ### Helper lemmas -/

theorem executeConversion_of_domain_empty (rule : String) (parts : List String)
    (ruleMark : String) (h : parts.getD 0 "" = "") :
    executeConversion rule parts ruleMark = (rule, []) := by
  unfold executeConversion
  rw [h]
  simp

theorem executeConversion_of_no_match (rule : String) (parts : List String)
    (ruleMark : String) (h : matchStyleGroups (parts.getD 1 "") = none) :
    executeConversion rule parts ruleMark = (rule, []) := by
  unfold executeConversion
  rw [h]
  split <;> rfl

theorem executeConversion_unchanged_of_not_applies (rule mask ruleMark : String)
    (h : convApplies rule mask = false) :
    executeConversion rule (jsSplit2 rule mask) ruleMark = (rule, []) := by
  by_cases hd : (jsSplit2 rule mask).getD 0 "" = ""
  · exact executeConversion_of_domain_empty _ _ _ hd
  · rcases hm : matchStyleGroups ((jsSplit2 rule mask).getD 1 "") with _ | g
    · exact executeConversion_of_no_match _ _ _ hm
    · exfalso
      simp only [convApplies, hm] at h
      simp at h hd
      exact hd h

theorem convertStyleRule_unchanged_of_not_applies (rule : String)
    (h : styleConvApplies rule = false) : convertStyleRule rule = (rule, []) := by
  unfold convertStyleRule
  by_cases h1 : containsS rule ":style" = true
  case neg => simp [h1]
  by_cases h2 : containsS rule MASK_CSS_EXTENDED_CSS_RULE = true
  · have hca : convApplies rule MASK_CSS_EXTENDED_CSS_RULE = false := by
      simpa [styleConvApplies, h1, h2] using h
    simp only [h1, h2, if_true]
    exact executeConversion_unchanged_of_not_applies _ _ _ hca
  · by_cases h3 : containsS rule MASK_CSS_EXCEPTION_EXTENDED_CSS_RULE = true
    · have hca : convApplies rule MASK_CSS_EXCEPTION_EXTENDED_CSS_RULE = false := by
        simpa [styleConvApplies, h1, h2, h3] using h
      simp only [h1, h2, h3, if_true, if_false, Bool.false_eq_true]
      exact executeConversion_unchanged_of_not_applies _ _ _ hca
    · by_cases h4 : containsS rule MASK_ELEMENT_HIDING = true
      · have hca : convApplies rule MASK_ELEMENT_HIDING = false := by
          simpa [styleConvApplies, h1, h2, h3, h4] using h
        simp only [h1, h2, h3, h4, if_true, if_false, Bool.false_eq_true]
        exact executeConversion_unchanged_of_not_applies _ _ _ hca
      · by_cases h5 : containsS rule MASK_ELEMENT_HIDING_EXCEPTION = true
        · have hca : convApplies rule MASK_ELEMENT_HIDING_EXCEPTION = false := by
            simpa [styleConvApplies, h1, h2, h3, h4, h5] using h
          simp only [h1, h2, h3, h4, h5, if_true, if_false, Bool.false_eq_true]
          exact executeConversion_unchanged_of_not_applies _ _ _ hca
        · simp [h1, h2, h3, h4, h5]

theorem optionsRewrite_unchanged_of_no_test (rule : String)
    (h1 : testTok "first-party" rule = false) (h2 : testTok "xhr" rule = false)
    (h3 : testTok "css" rule = false) (h4 : testTok "frame" rule = false) :
    optionsRewrite rule = rule := by
  unfold optionsRewrite
  simp [h1, h2, h3, h4]

theorem convertRule_unchanged_of_no_pattern (rule : String)
    (h : noConvPattern rule = true) : convertRule rule = rule := by
  unfold noConvPattern at h
  simp only [Bool.and_eq_true, Bool.not_eq_true'] at h
  obtain ⟨⟨⟨⟨hs, h1⟩, h2⟩, h3⟩, h4⟩ := h
  unfold convertRule convertRuleW
  rw [convertStyleRule_unchanged_of_not_applies rule hs]
  exact optionsRewrite_unchanged_of_no_test rule h1 h2 h3 h4

/-! ### The claims -/

/-- C1: convert returns a list of the same length as the input, with the
i-th output obtained from the i-th input (so the relative order is preserved
and no rule is dropped), and any rule matching none of the conversion
patterns — no dialect-mask ':style' rewrite and none of the four option-token
rewrites — passes through unchanged. -/
theorem convert_preserves_length_order (rules : List String) :
    (convert rules).length = rules.length ∧
    convert rules = rules.map convertRule ∧
    ∀ r ∈ rules, noConvPattern r = true → convertRule r = r := by
  refine ⟨by simp [convert], rfl, ?_⟩
  intro r _ h
  exact convertRule_unchanged_of_no_pattern r h

/-- Witness for C1 at a concrete input: a plain network rule with no
conversion pattern passes through convert unchanged. -/
theorem convert_preserves_length_order_witness :
    (convert ["||example.org^"]).length = 1 ∧
    convertRule "||example.org^" = "||example.org^" := by
  refine ⟨?_, ?_⟩
  · have h := (convert_preserves_length_order ["||example.org^"]).1
    simpa using h
  · exact (convert_preserves_length_order ["||example.org^"]).2.2 "||example.org^"
      (by simp) (by decide)

/-- C2, counterexample: on ["example.com#@##h1:style(color: red)"] convert
does not produce ["example.com#@$#h1 { color: red }"] (the rule contains
"##", which the element-hiding branch matches before the exception mask, so
the split point is inside "#@##" and the output keeps the "#@" of the domain
part followed by the "#$#" output mask). -/
theorem convert_exception_example_counterexample :
    convert ["example.com#@##h1:style(color: red)"] ≠
      ["example.com#@$#h1 \x7b color: red \x7d"] := by
  decide

/-- C2, amended: convert maps ["example.com##h1:style(color: blue !important)"]
to ["example.com#$#h1 { color: blue !important }"]; the input
["example.com#@##h1:style(color: red)"] maps to
["example.com#@#$#h1 { color: red }"] because the "##" inside "#@##" is
matched by the element-hiding branch first; the exception-mask reconstruction
domain + "#@$#" + selector + " { " + style + " }" shows on the input
["example.com#@#h1:style(color: red)"], which maps to
["example.com#@$#h1 { color: red }"]. -/
theorem convert_style_injection_examples :
    convert ["example.com##h1:style(color: blue !important)"] =
      ["example.com#$#h1 \x7b color: blue !important \x7d"] ∧
    convert ["example.com#@##h1:style(color: red)"] =
      ["example.com#@#$#h1 \x7b color: red \x7d"] ∧
    convert ["example.com#@#h1:style(color: red)"] =
      ["example.com#@$#h1 \x7b color: red \x7d"] :=
  ⟨rfl, rfl, rfl⟩

/-- C3: the four legacy option tokens are rewritten case-insensitively,
anchored on a preceding '$' or ',' delimiter which is preserved:
'first-party' → '~third-party', 'xhr' → 'xmlhttprequest', 'css' →
'stylesheet', 'frame' → 'subdocument'; the rewrites are attempted
independently and co-occur in one rule, and an unanchored token (no '$' or
',' before it) is not rewritten. -/
theorem convert_option_token_examples :
    convert ["||example.org^$first-party,xhr"] =
      ["||example.org^$~third-party,xmlhttprequest"] ∧
    convert ["||example.org^$XHR"] = ["||example.org^$xmlhttprequest"] ∧
    convert ["||example.org^$xhr,frame"] = ["||example.org^$xmlhttprequest,subdocument"] ∧
    convert ["||example.org^$css"] = ["||example.org^$stylesheet"] ∧
    convert ["||example.org^$frame"] = ["||example.org^$subdocument"] ∧
    convert ["||xhr.example.org^"] = ["||xhr.example.org^"] :=
  ⟨rfl, rfl, rfl, rfl, rfl, rfl⟩

/-- C4, evaluation of the code bug: for a '/'-wrapped exclusion entry the
pattern string handed to the RegExp engine is exclusion.substring(1,
exclusion.length - 2), which drops the final character of the pattern body
together with the closing slash.  For the entry "/abc/" the engine receives
"ab" and not "abc" (first two conjuncts, engines that recognise exactly one
pattern string); consequently, under the regex semantics for a
metacharacter-free pattern (match ⟺ substring occurrence), the line "xaby"
is excluded by "/abc/" even though "abc" neither occurs in nor matches it. -/
theorem exclusion_pattern_slice_bug :
    isExcluded (fun pat _ => pat == "ab") "xaby" ["/abc/"] = true ∧
    isExcluded (fun pat _ => pat == "abc") "xaby" ["/abc/"] = false ∧
    isExcluded (fun pat line => containsS line pat) "xaby" ["/abc/"] = true ∧
    containsS "xaby" "abc" = false ∧
    jsSubstring "/abc/" 1 ("/abc/".data.length - 2) = "ab" :=
  ⟨rfl, rfl, rfl, rfl, rfl⟩

/-- C7: exclusion filtering is idempotent — applying exclude twice with the
same file system and exclusions resource equals applying it once, for every
line list, resource name and regex engine. -/
theorem exclude_idempotent (env : Env) (fs : FileSystem) (currentDir : String)
    (lines : List String) (exclusionsFileName : String) :
    exclude env fs currentDir (exclude env fs currentDir lines exclusionsFileName)
        exclusionsFileName =
      exclude env fs currentDir lines exclusionsFileName := by
  unfold exclude
  cases h : readFile fs (pathJoin currentDir exclusionsFileName) with
  | none => rfl
  | some s =>
    by_cases hs : s = ""
    · simp [hs]
    · simp [hs, List.filter_filter]

/-- A black-box environment with inert externals, used to instantiate
universally quantified theorems at concrete inputs. -/
def trivEnv : Env where
  regexTest := fun _ _ => false
  download := fun _ => none
  validate := fun l => l
  blacklistDomains := fun l => l
  sortLines := fun l => l
  incrementVersion := fun v => v
  parseRevisionVersion := fun _ => Except.ok none
  parseMetadata := fun _ => Except.error "SyntaxError: Unexpected token"
  toDateString := fun _ => ""
  now := 0
  listDir := fun _ => []
  isDirectory := fun _ => false

/-- Witness for C7 at a concrete input: idempotence on a two-line list with a
one-entry exclusions file. -/
theorem exclude_idempotent_witness :
    exclude trivEnv ⟨[("d/ex.txt", "bad")]⟩ "d"
        (exclude trivEnv ⟨[("d/ex.txt", "bad")]⟩ "d" ["good", "verybad"] "ex.txt") "ex.txt" =
      exclude trivEnv ⟨[("d/ex.txt", "bad")]⟩ "d" ["good", "verybad"] "ex.txt" :=
  exclude_idempotent trivEnv ⟨[("d/ex.txt", "bad")]⟩ "d" ["good", "verybad"] "ex.txt"

/-- C8: a template line that merely contains "@include" but starts with
whitespace is not dispatched to the inclusion resolver by the compile loop:
for every environment and file system the line contributes exactly its
trimmed self, as an ordinary rule line. -/
theorem leading_ws_include_not_expanded (env : Env) (fs : FileSystem)
    (currentDir line : String)
    (hws : ∃ c rest, line.data = c :: rest ∧ isSpaceChar c = true)
    (_hinc : containsS line "@include" = true) :
    processLine env fs currentDir line = [trim line] := by
  obtain ⟨c, rest, hdata, hc⟩ := hws
  have hns : startsWithS line "@include " = false := by
    have hc' : c = ' ' ∨ c = '\t' ∨ c = '\n' ∨ c = '\r' ∨ c = '\x0b' ∨ c = '\x0c' := by
      simpa [isSpaceChar] using hc
    unfold startsWithS
    rw [hdata]
    rcases hc' with rfl | rfl | rfl | rfl | rfl | rfl <;> rfl
  simp [processLine, hns]

/-- Witness for C8 at a concrete input: a line with two leading spaces before
its "@include" is emitted trimmed, unexpanded, under the inert environment. -/
theorem leading_ws_include_not_expanded_witness :
    processLine trivEnv ⟨[]⟩ "dir" "  @include foo.txt" = ["@include foo.txt"] :=
  (leading_ws_include_not_expanded trivEnv ⟨[]⟩ "dir" "  @include foo.txt"
    ⟨' ', " @include foo.txt".data, rfl, rfl⟩ (by decide)).trans (by decide)

/-- If the separator is a prefix of the (non-empty) input, the split's first
segment is empty. -/
theorem splitSubAux_head_of_startsWith (s0 : Char) (sep : List Char) (fuel : Nat)
    (c : Char) (rest : List Char)
    (h : (s0 :: sep).isPrefixOf (c :: rest) = true) :
    ∃ tl, splitSubAux s0 sep (fuel + 1) (c :: rest) [] = [] :: tl := by
  unfold splitSubAux
  rw [if_pos h]
  exact ⟨_, rfl⟩

/-- If the separator is a prefix of the input, the split's first segment is
empty. -/
theorem splitSub_head_of_startsWith (s0 : Char) (sep s : List Char)
    (h : (s0 :: sep).isPrefixOf s = true) :
    ∃ tl, splitSub (s0 :: sep) s = [] :: tl := by
  cases s with
  | nil => simp [List.isPrefixOf] at h
  | cons c rest =>
    unfold splitSub
    simp only [List.length_cons]
    exact splitSubAux_head_of_startsWith s0 sep rest.length c rest h

/-- If a non-empty mask occurs at position 0 of the rule, the first part of
rule.split(mask, 2) is the empty string. -/
theorem jsSplit2_head_of_startsWith (rule mask : String) (s0 : Char) (sep : List Char)
    (hmask : mask.data = s0 :: sep)
    (h : mask.data.isPrefixOf rule.data = true) :
    (jsSplit2 rule mask).getD 0 "" = "" := by
  rw [hmask] at h
  obtain ⟨tl, htl⟩ := splitSub_head_of_startsWith s0 sep rule.data h
  unfold jsSplit2
  rw [hmask, htl]
  rfl

/-- C9: a rule containing ':style' whose matched dialect mask sits at position
0 (so the domain part before the mask is empty) is left unchanged by the
Step-A CSS-injection conversion, which also emits nothing. -/
theorem style_mask_at_start_unchanged (rule m : String)
    (hstyle : containsS rule ":style" = true)
    (hsel : selectedMask rule = some m)
    (hpre : m.data.isPrefixOf rule.data = true) :
    convertStyleRule rule = (rule, []) := by
  unfold selectedMask at hsel
  unfold convertStyleRule
  by_cases h2 : containsS rule MASK_CSS_EXTENDED_CSS_RULE = true
  · rw [if_pos h2] at hsel
    injection hsel with hm
    subst hm
    simp only [hstyle, h2, if_true]
    exact executeConversion_of_domain_empty _ _ _
      (jsSplit2_head_of_startsWith rule _ '#' ['?', '#'] rfl hpre)
  · rw [if_neg h2] at hsel
    by_cases h3 : containsS rule MASK_CSS_EXCEPTION_EXTENDED_CSS_RULE = true
    · rw [if_pos h3] at hsel
      injection hsel with hm
      subst hm
      simp only [hstyle, h2, h3, if_true, if_false, Bool.false_eq_true]
      exact executeConversion_of_domain_empty _ _ _
        (jsSplit2_head_of_startsWith rule _ '#' ['@', '?', '#'] rfl hpre)
    · rw [if_neg h3] at hsel
      by_cases h4 : containsS rule MASK_ELEMENT_HIDING = true
      · rw [if_pos h4] at hsel
        injection hsel with hm
        subst hm
        simp only [hstyle, h2, h3, h4, if_true, if_false, Bool.false_eq_true]
        exact executeConversion_of_domain_empty _ _ _
          (jsSplit2_head_of_startsWith rule _ '#' ['#'] rfl hpre)
      · rw [if_neg h4] at hsel
        by_cases h5 : containsS rule MASK_ELEMENT_HIDING_EXCEPTION = true
        · rw [if_pos h5] at hsel
          injection hsel with hm
          subst hm
          simp only [hstyle, h2, h3, h4, h5, if_true, if_false, Bool.false_eq_true]
          exact executeConversion_of_domain_empty _ _ _
            (jsSplit2_head_of_startsWith rule _ '#' ['@', '#'] rfl hpre)
        · rw [if_neg h5] at hsel
          exact absurd hsel (by simp)

/-- Witness for C9 at a concrete input: "##h1:style(color: red)" selects the
element-hiding mask at position 0 and Step A leaves it unchanged. -/
theorem style_mask_at_start_unchanged_witness :
    convertStyleRule "##h1:style(color: red)" = ("##h1:style(color: red)", []) :=
  style_mask_at_start_unchanged "##h1:style(color: red)" "##" (by decide) (by decide)
    (by decide)

/-- C10: each option-token rewrite replaces only the leftmost
delimiter-anchored occurrence of its token: whenever the leftmost match is at
position i, the result is the unchanged prefix, the preserved delimiter, the
replacement, and the rest of the rule from position i + 1 + |token| on,
verbatim — so every later occurrence is left as-is.  Concretely, a rule
containing "$xhr,xhr" converts to "$xmlhttprequest,xhr". -/
theorem option_rewrite_first_occurrence :
    (∀ (tok rep s : List Char) (i : Nat), firstMatchPos tok s = some i →
        replaceTokAux tok rep s =
          s.take (i + 1) ++ rep ++ s.drop (i + 1 + tok.length)) ∧
    convert ["||example.org^$xhr,xhr"] = ["||example.org^$xmlhttprequest,xhr"] := by
  constructor
  · intro tok rep s
    induction s with
    | nil => intro i h; simp [firstMatchPos] at h
    | cons c rest ih =>
      intro i h
      unfold firstMatchPos at h
      unfold replaceTokAux
      by_cases hc : (c = '$' ∨ c = ',') ∧ (rest.take tok.length).map lowerAscii = tok
      · rw [if_pos hc] at h ⊢
        have hi : i = 0 := by
          injection h with h'
          omega
        subst hi
        have harith : 0 + 1 + tok.length = tok.length + 1 := by omega
        rw [harith]
        simp [List.take_succ_cons, List.drop_succ_cons]
      · rw [if_neg hc] at h ⊢
        rcases hm : firstMatchPos tok rest with _ | j
        · rw [hm] at h; simp at h
        · rw [hm] at h
          simp only [Option.map_some'] at h
          have hi : i = j + 1 := by
            injection h with h'
            omega
          subst hi
          rw [ih j hm]
          have harith : j + 1 + 1 + tok.length = (j + 1 + tok.length) + 1 := by omega
          rw [harith]
          simp [List.take_succ_cons, List.drop_succ_cons]
  · rfl

/-- Witness for C10 at a concrete input: in "$xhr,xhr" only the occurrence at
the leftmost match position 0 is rewritten. -/
theorem option_rewrite_first_occurrence_witness :
    replaceTokAux "xhr".data "xmlhttprequest".data "$xhr,xhr".data =
      "$xhr,xhr".data.take (0 + 1) ++ "xmlhttprequest".data ++
        "$xhr,xhr".data.drop (0 + 1 + "xhr".data.length) :=
  option_rewrite_first_occurrence.1 "xhr".data "xmlhttprequest".data "$xhr,xhr".data 0
    (by decide)

/-- Concrete batch scenario for C5: directory "a" has no template.txt (a fatal
condition), directory "b" is fully buildable. -/
def envC5 : Env where
  regexTest := fun _ _ => false
  download := fun _ => none
  validate := fun l => l
  blacklistDomains := fun l => l
  sortLines := fun l => l
  incrementVersion := fun v => v
  parseRevisionVersion := fun _ => Except.ok none
  parseMetadata := fun s =>
    if s = "MB" then Except.ok ⟨"NameB", "DescB", "3 days"⟩
    else Except.error "SyntaxError: Unexpected token"
  toDateString := fun _ => "Mon Jan 01 2026"
  now := 1000
  listDir := fun p => if p = "root" then ["a", "b"] else []
  isDirectory := fun p => p == "root/a" || p == "root/b"

/-- The file system of the C5 scenario: only directory "b" has its template
and metadata. -/
def fsC5 : FileSystem :=
  ⟨[("root/b/template.txt", "rule1\r\nrule2"), ("root/b/metadata.json", "MB")]⟩

/-- A buildFilter run that ends in an error leaves the file system exactly as
it was: every throw site in the source precedes both writeFile calls. -/
theorem buildFilter_error_eq (env : Env) (fs : FileSystem) (filterDir : String) (e : String)
    (h : (buildFilter env fs filterDir).1 = Except.error e) :
    buildFilter env fs filterDir = (Except.error e, fs) := by
  unfold buildFilter at h ⊢
  cases hrf : readFile fs (pathJoin filterDir TEMPLATE_FILE) with
  | none =>
    rw [hrf] at h
    simp at h
    subst h
    rfl
  | some t =>
    rw [hrf] at h
    by_cases ht : t = ""
    · subst ht
      simp at h
      subst h
      rfl
    · cases hmr : makeRevision env fs (pathJoin filterDir REVISION_FILE) with
      | error e1 =>
        rw [hmr] at h
        simp [ht] at h
        subst h
        simp [ht]
      | ok rev =>
        rw [hmr] at h
        simp [ht] at h
        cases hmh : makeHeader env fs (pathJoin filterDir METADATA_FILE) rev with
        | error e1 =>
          rw [hmh] at h
          simp at h
          subst h
          simp [ht, hmh]
        | ok header =>
          rw [hmh] at h
          simp at h

/-- C5, counterexample: in the concrete batch scenario, the fatal missing
template of directory "a" makes the whole build return that error, and the
sibling directory "b" is left unbuilt (no filter.txt for it in the resulting
file system) — even though b on its own builds fine and writes its
filter.txt.  This contradicts the claim that a fatal condition in one
directory does not prevent the remaining sibling directories from being
built. -/
theorem build_batch_abort_counterexample :
    (build envC5 fsC5 "root").1 = Except.error "Invalid template" ∧
    readFile (build envC5 fsC5 "root").2 "root/b/filter.txt" = none ∧
    (buildFilter envC5 fsC5 "root/b").1 = Except.ok () ∧
    (readFile (buildFilter envC5 fsC5 "root/b").2 "root/b/filter.txt").isSome = true :=
  ⟨rfl, rfl, rfl, rfl⟩

/-- C5, amended: a fatal condition in a directory's build stops that
directory's build before any output is written for it, and aborts the batch:
when the first listed directory's buildFilter throws, build returns that
error with the file system unchanged — nothing is written for the failing
directory and the remaining sibling directories are not built. -/
theorem build_fatal_stops_batch (env : Env) (fs : FileSystem) (root d : String)
    (rest : List String) (e : String)
    (hlist : env.listDir root = d :: rest)
    (hdir : env.isDirectory (pathJoin root d) = true)
    (herr : (buildFilter env fs (pathJoin root d)).1 = Except.error e) :
    build env fs root = (Except.error e, fs) := by
  unfold build
  rw [hlist]
  unfold buildDirs
  have hbf := buildFilter_error_eq env fs (pathJoin root d) e herr
  simp [hdir, hbf]

/-- Witness for C5's amended statement at the concrete scenario: the batch run
over "root" ends with directory a's "Invalid template" error and an unchanged
file system. -/
theorem build_fatal_stops_batch_witness :
    build envC5 fsC5 "root" = (Except.error "Invalid template", fsC5) :=
  build_fatal_stops_batch envC5 fsC5 "root" "a" ["b"] "Invalid template" rfl rfl rfl

/-- C6: a rule with a dialect mask whose part after the mask does not match
(.*):style\((.*)\) is returned unchanged — but, contrary to the claim, NO
warning is emitted and the conversion is silent: a failed match takes the
null-match early exit, and the groups.length !== 3 guard in front of
logger.warn can never be true because a successful exec always yields the
whole match plus exactly two groups.  Evaluated at the failing input
"example.com##h1:style(color: red" (unbalanced parenthesis): the rule is
unchanged, and the warning list is empty.  The embedding is a total function,
so no exception is thrown. -/
theorem style_unmatched_no_warning :
    convertRuleW "example.com##h1:style(color: red" =
      ("example.com##h1:style(color: red", []) ∧
    convert ["example.com##h1:style(color: red"] = ["example.com##h1:style(color: red"] ∧
    convertWarnings ["example.com##h1:style(color: red"] = [] ∧
    containsS "example.com##h1:style(color: red" ":style" = true ∧
    selectedMask "example.com##h1:style(color: red" = some MASK_ELEMENT_HIDING ∧
    matchStyleGroups "h1:style(color: red" = none :=
  ⟨rfl, rfl, rfl, rfl, rfl, rfl⟩

end FiltersCompiler
